import Mathlib

/-!
Verification of the weather-dashboard core (src/src/App.js): the
state-and-fetch orchestration consisting of a debounced fetch wrapper,
a dual-endpoint weather client, a single-slot cache, and the UI state
controller.  All definitions below are shallow embeddings of the
JavaScript in `App.js`; asynchronous sequencing is made explicit by
threading state and by recording the HTTP requests a cycle issues.
-/

/-- An opaque parsed-JSON payload: the upstream API bodies are passed
through verbatim, so we only need equality on them. -/
structure Json where
  raw : String
deriving DecidableEq

/-- The outcome of awaiting `response.json()`: it resolves to a parsed
value or rejects with a message. -/
abbrev JsonOutcome := Except String Json

deriving instance DecidableEq for Except

/-- A resolved HTTP response: its `ok` flag (HTTP-success status) and
the outcome of parsing its body. -/
structure Response where
  ok : Bool
  jsonResult : JsonOutcome
deriving DecidableEq

/-- The outcome of awaiting `fetch(url)`: network-level rejection with a
message, or resolution to a `Response`. -/
inductive FetchResult where
  | reject (msg : String)
  | resolve (resp : Response)
deriving DecidableEq

/-- The network environment one fetch cycle runs against: what the
current-conditions request and the forecast request would yield. -/
structure FetchEnv where
  weather : FetchResult
  forecast : FetchResult
deriving DecidableEq

/-- An HTTP GET request issued by the weather client, in issue order. -/
inductive Req where
  | weather (city : String)
  | forecast (city : String)
deriving DecidableEq

/-- The record `JSON.stringify`-ed into the single localStorage slot on
a successful fetch (`cacheData` in `App.js`). -/
structure CacheRecord where
  city : String
  weatherData : Json
  forecastData : Json
  lastUpdated : String
deriving DecidableEq

/-- The React state owned by `App`: one field per `useState` hook.
`unit` is the literal string `"celsius"` or `"fahrenheit"` as in the
source. -/
structure UIState where
  city : String
  weatherData : Option Json
  forecastData : Option Json
  isLoading : Bool
  error : Option String
  unit : String
  lastUpdated : Option String
deriving DecidableEq

def DEFAULT_CITY : String := "Delhi"

/-- The initial values of the `useState` hooks in `App`. -/
def initialUIState : UIState :=
  { city := DEFAULT_CITY
    weatherData := none
    forecastData := none
    isLoading := true
    error := none
    unit := "celsius"
    lastUpdated := none }

/-- Everything one fetch cycle produces: the UI state after the
`finally`, the cache slot after the cycle (the record last written, or
the prior content), and the HTTP requests issued, in order. -/
structure CycleResult where
  state : UIState
  cache : Option CacheRecord
  reqs : List Req
deriving DecidableEq

/-- The body of the debounced function inside `fetchWeatherData`
(App.js lines 22-57), run once the debounce window has elapsed.
`now1` is the `new Date().toISOString()` stored into UI state and
`now2` the one captured an instant later for the cache record; the two
awaited `fetch` calls are strictly sequential, so the forecast request
is only issued (and `env.forecast` only consulted) after the
current-conditions fetch has resolved. The `catch` stores
`err.message` and the `finally` clears `isLoading`. -/
def fetchCycle (env : FetchEnv) (now1 now2 : String) (cityName : String)
    (s : UIState) (cache : Option CacheRecord) : CycleResult :=
  let s1 : UIState := { s with isLoading := true, error := none }
  match env.weather with
  | .reject msg =>
      ⟨{ s1 with error := some msg, isLoading := false }, cache,
        [.weather cityName]⟩
  | .resolve wresp =>
    match env.forecast with
    | .reject msg =>
        ⟨{ s1 with error := some msg, isLoading := false }, cache,
          [.weather cityName, .forecast cityName]⟩
    | .resolve fresp =>
      if !wresp.ok || !fresp.ok then
        ⟨{ s1 with error := some "City not found", isLoading := false }, cache,
          [.weather cityName, .forecast cityName]⟩
      else
        match wresp.jsonResult with
        | .error msg =>
            ⟨{ s1 with error := some msg, isLoading := false }, cache,
              [.weather cityName, .forecast cityName]⟩
        | .ok w =>
          match fresp.jsonResult with
          | .error msg =>
              ⟨{ s1 with error := some msg, isLoading := false }, cache,
                [.weather cityName, .forecast cityName]⟩
          | .ok f =>
              ⟨{ s1 with
                  weatherData := some w
                  forecastData := some f
                  lastUpdated := some now1
                  isLoading := false },
                some ⟨cityName, w, f, now2⟩,
                [.weather cityName, .forecast cityName]⟩

/-- Whether the environment makes the cycle take the `catch` path:
a network rejection on either request, a non-success status on either
response, or a body-parse rejection. -/
def cycleFails (env : FetchEnv) : Bool :=
  match env.weather with
  | .reject _ => true
  | .resolve wresp =>
    match env.forecast with
    | .reject _ => true
    | .resolve fresp =>
      if !wresp.ok || !fresp.ok then true
      else
        match wresp.jsonResult, fresp.jsonResult with
        | .ok _, .ok _ => false
        | _, _ => true

/-! ## The debounce wrapper

`fetchWeatherData` is `debounce(fn, 300)` from lodash with default
options: trailing-edge only, a single pending timer holding the last
arguments, restarted by every call. Time is in milliseconds. -/

def debounceWait : Nat := 300

/-- The debouncer's one pending slot: the deadline at which the wrapped
function will fire and the arguments of the latest call. -/
structure DebounceState where
  pending : Option (Nat × String)
deriving DecidableEq

/-- A call to the debounced function at time `t` with argument `args`:
if a pending timer has already elapsed it fires (with its own
arguments) before the new call is recorded; in either case the timer is
restarted to `t + 300` holding the new arguments. Returns the new
debouncer state and the invocations of the wrapped function that fired,
as (time, argument) pairs. -/
def debounceTrigger (t : Nat) (args : String) (d : DebounceState) :
    DebounceState × List (Nat × String) :=
  match d.pending with
  | none => (⟨some (t + debounceWait, args)⟩, [])
  | some (dl, a) =>
      if dl ≤ t then (⟨some (t + debounceWait, args)⟩, [(dl, a)])
      else (⟨some (t + debounceWait, args)⟩, [])

/-- Run a time-ordered list of calls to the debounced function,
collecting the wrapped-function invocations that fire along the way. -/
def runTriggers (d : DebounceState) :
    List (Nat × String) → DebounceState × List (Nat × String)
  | [] => (d, [])
  | (t, a) :: rest =>
      let step1 := debounceTrigger t a d
      let step2 := runTriggers step1.1 rest
      (step2.1, step1.2 ++ step2.2)

/-- The invocations still owed by a debouncer state once time runs out:
the pending timer, if any, fires. -/
def pendingFires (d : DebounceState) : List (Nat × String) :=
  match d.pending with
  | none => []
  | some p => [p]

/-- All wrapped-function invocations produced by a time-ordered list of
calls to a fresh debounced function, once all timers have elapsed. -/
def debounceRun (evs : List (Nat × String)) : List (Nat × String) :=
  let r := runTriggers ⟨none⟩ evs
  r.2 ++ pendingFires r.1

/-- A time-ordered burst: each call arrives no earlier than the
previous one and strictly before the previous call's 300ms window
elapses. -/
def burst : List (Nat × String) → Bool
  | [] => true
  | [_] => true
  | (t1, _) :: (t2, a2) :: rest =>
      (t1 ≤ t2 && t2 < t1 + debounceWait) && burst ((t2, a2) :: rest)

/-! ## The App component's hooks and handlers -/

/-- The body of the mount-time `useEffect` (App.js lines 61-71):
`cachedData` is the (already parsed) cache content; if present its
fields are adopted into state and `isLoading` is cleared, and in every
case `fetchWeatherData` is triggered with the cached city if present,
else the current `city` state (still the default at mount). Returns
the state after the synchronous effect body and the city passed to the
debounced trigger — no network request is issued by the effect itself. -/
def startupEffect (cached : Option CacheRecord) (s : UIState) :
    UIState × String :=
  match cached with
  | some r =>
      ({ s with
          city := r.city
          weatherData := some r.weatherData
          forecastData := some r.forecastData
          lastUpdated := some r.lastUpdated
          isLoading := false },
        r.city)
  | none => (s, s.city)

/-- The startup cache read, `JSON.parse(localStorage.getItem(CACHE_KEY))`
(App.js line 62), with `JSON.parse` abstracted as `parse` (returning
`none` where the platform parser would throw a SyntaxError).
`localStorage.getItem` yields `null` when the slot is absent, and
`JSON.parse(null)` is `null`, so an absent slot reads as no cache; but
the call is not wrapped in try/catch, so a SyntaxError from a malformed
stored value propagates out of the effect. -/
def readCacheStartup (parse : String → Option CacheRecord)
    (stored : Option String) : Except String (Option CacheRecord) :=
  match stored with
  | none => Except.ok none
  | some s =>
    match parse s with
    | some r => Except.ok (some r)
    | none => Except.error "SyntaxError: malformed cache JSON"

/-- `toggleUnit` flips the `unit` string (App.js lines 77-79). The
second component lists the cities passed to the debounced fetch trigger
by the handler: `toggleUnit` triggers none. -/
def toggleUnit (s : UIState) : UIState × List String :=
  ({ s with unit := if s.unit = "celsius" then "fahrenheit" else "celsius" },
    [])

/-- `handleRefresh` re-triggers the debounced fetch for the current
city (App.js lines 81-83); it changes no state itself. -/
def handleRefresh (s : UIState) : UIState × List String :=
  (s, [s.city])

/-- Neither `useEffect` in `App` returns a cleanup function (both
effect bodies end without a `return`), so this is the cleanup React
registers for the mount effect: none. -/
def startupEffectCleanup : Option (DebounceState → DebounceState) := none

/-- The cleanup registered by the `[city, fetchWeatherData]` effect:
none (its body only calls `fetchWeatherData(city)`). -/
def cityEffectCleanup : Option (DebounceState → DebounceState) := none

/-- Run an effect's registered cleanup over the debouncer, if one was
registered. -/
def runCleanup (c : Option (DebounceState → DebounceState))
    (d : DebounceState) : DebounceState :=
  match c with
  | none => d
  | some f => f d

/-- Tearing the `App` component down runs the cleanups of its effects
(there are none); `fetchWeatherData.cancel()` is never called. -/
def unmountApp (d : DebounceState) : DebounceState :=
  runCleanup cityEffectCleanup (runCleanup startupEffectCleanup d)

/-! ## Theorems -/

/-- C10: within a single fetch cycle the two GET requests are issued
strictly sequentially — the request list always starts with the
current-conditions request, and the forecast request appears (after it)
exactly when the current-conditions fetch resolved; if the
current-conditions fetch rejects at the network level, the forecast
request is never issued. -/
theorem fetchCycle_requests_sequential (env : FetchEnv)
    (now1 now2 city : String) (s : UIState) (cache : Option CacheRecord) :
    (fetchCycle env now1 now2 city s cache).reqs =
      match env.weather with
      | .reject _ => [Req.weather city]
      | .resolve _ => [Req.weather city, Req.forecast city] := by
  obtain ⟨w, f⟩ := env
  cases w with
  | reject m => rfl
  | resolve wresp =>
    cases f with
    | reject m => rfl
    | resolve fresp =>
      simp only [fetchCycle]
      by_cases hok : (!wresp.ok || !fresp.ok) = true
      · simp [hok]
      · simp only [hok]
        cases wresp.jsonResult with
        | error m => simp [hok]
        | ok w' =>
          cases fresp.jsonResult with
          | error m => simp [hok]
          | ok f' => simp [hok]

/-- C2: a fetch cycle whose two responses both resolve with HTTP
success and whose bodies both parse ends with `weatherData` and
`forecastData` equal to the parsed bodies, `error = none`,
`isLoading = false`, `lastUpdated` set to the fresh timestamp, and
overwrites the cache slot with a record for the fetched city carrying
the fresh cache timestamp. -/
theorem fetchCycle_success_updates_state_and_cache
    (wresp fresp : Response) (w f : Json) (now1 now2 city : String)
    (s : UIState) (cache : Option CacheRecord)
    (hwok : wresp.ok = true) (hfok : fresp.ok = true)
    (hw : wresp.jsonResult = .ok w) (hf : fresp.jsonResult = .ok f) :
    fetchCycle ⟨.resolve wresp, .resolve fresp⟩ now1 now2 city s cache =
      ⟨{ s with
          weatherData := some w
          forecastData := some f
          lastUpdated := some now1
          isLoading := false
          error := none },
        some ⟨city, w, f, now2⟩,
        [Req.weather city, Req.forecast city]⟩ := by
  simp [fetchCycle, hwok, hfok, hw, hf]

/-- Witness for C2 at a concrete successful environment. -/
theorem fetchCycle_success_updates_state_and_cache_witness :
    fetchCycle ⟨.resolve ⟨true, .ok ⟨"cur"⟩⟩, .resolve ⟨true, .ok ⟨"fc"⟩⟩⟩
        "T1" "T2" "Delhi" initialUIState none =
      ⟨{ initialUIState with
          weatherData := some ⟨"cur"⟩
          forecastData := some ⟨"fc"⟩
          lastUpdated := some "T1"
          isLoading := false
          error := none },
        some ⟨"Delhi", ⟨"cur"⟩, ⟨"fc"⟩, "T2"⟩,
        [Req.weather "Delhi", Req.forecast "Delhi"]⟩ :=
  fetchCycle_success_updates_state_and_cache _ _ _ _ _ _ _ _ _
    rfl rfl rfl rfl

/-- C3: a fetch cycle that takes the `catch` path for any reason ends
with `isLoading = false` and `error` set to some message, while
`weatherData`, `forecastData` and `lastUpdated` keep whatever values
the prior state had — the error clears none of them. -/
theorem fetchCycle_failure_preserves_data (env : FetchEnv)
    (now1 now2 city : String) (s : UIState) (cache : Option CacheRecord)
    (hfail : cycleFails env = true) :
    (fetchCycle env now1 now2 city s cache).state.isLoading = false ∧
    ((fetchCycle env now1 now2 city s cache).state.error).isSome = true ∧
    (fetchCycle env now1 now2 city s cache).state.weatherData = s.weatherData ∧
    (fetchCycle env now1 now2 city s cache).state.forecastData = s.forecastData ∧
    (fetchCycle env now1 now2 city s cache).state.lastUpdated = s.lastUpdated := by
  obtain ⟨w, f⟩ := env
  cases w with
  | reject m => simp [fetchCycle]
  | resolve wresp =>
    cases f with
    | reject m => simp [fetchCycle]
    | resolve fresp =>
      simp only [fetchCycle, cycleFails] at hfail ⊢
      by_cases hok : (!wresp.ok || !fresp.ok) = true
      · simp [hok]
      · simp only [hok, if_false] at hfail ⊢
        cases hw : wresp.jsonResult with
        | error m => simp [hw]
        | ok w' =>
          cases hf : fresp.jsonResult with
          | error m => simp [hw, hf]
          | ok f' => simp [hw, hf] at hfail

/-- Witness for C3: a failing cycle (HTTP 404 on the first response)
run from a state holding prior data keeps that data. -/
theorem fetchCycle_failure_preserves_data_witness :
    cycleFails ⟨.resolve ⟨false, .ok ⟨"nf"⟩⟩, .resolve ⟨true, .ok ⟨"fc"⟩⟩⟩ = true ∧
    ((fetchCycle ⟨.resolve ⟨false, .ok ⟨"nf"⟩⟩, .resolve ⟨true, .ok ⟨"fc"⟩⟩⟩
        "T3" "T4" "Atlantis"
        { initialUIState with
            weatherData := some ⟨"old"⟩
            forecastData := some ⟨"oldf"⟩
            lastUpdated := some "T0" } none).state.weatherData = some ⟨"old"⟩ ∧
      (fetchCycle ⟨.resolve ⟨false, .ok ⟨"nf"⟩⟩, .resolve ⟨true, .ok ⟨"fc"⟩⟩⟩
        "T3" "T4" "Atlantis"
        { initialUIState with
            weatherData := some ⟨"old"⟩
            forecastData := some ⟨"oldf"⟩
            lastUpdated := some "T0" } none).state.isLoading = false) :=
  ⟨rfl, by
    have h := fetchCycle_failure_preserves_data
      ⟨.resolve ⟨false, .ok ⟨"nf"⟩⟩, .resolve ⟨true, .ok ⟨"fc"⟩⟩⟩
      "T3" "T4" "Atlantis"
      { initialUIState with
          weatherData := some ⟨"old"⟩
          forecastData := some ⟨"oldf"⟩
          lastUpdated := some "T0" } none rfl
    exact ⟨h.2.2.1, h.1⟩⟩

/-- C9: a fetch cycle that fails for any reason — network rejection,
non-success HTTP status, or body-parse rejection — leaves the persisted
cache slot exactly as it was; the write happens only on the all-success
path. -/
theorem fetchCycle_failure_leaves_cache_unchanged (env : FetchEnv)
    (now1 now2 city : String) (s : UIState) (cache : Option CacheRecord)
    (hfail : cycleFails env = true) :
    (fetchCycle env now1 now2 city s cache).cache = cache := by
  obtain ⟨w, f⟩ := env
  cases w with
  | reject m => rfl
  | resolve wresp =>
    cases f with
    | reject m => rfl
    | resolve fresp =>
      simp only [fetchCycle, cycleFails] at hfail ⊢
      by_cases hok : (!wresp.ok || !fresp.ok) = true
      · simp [hok]
      · simp only [hok, if_false] at hfail ⊢
        cases hw : wresp.jsonResult with
        | error m => simp [hw]
        | ok w' =>
          cases hf : fresp.jsonResult with
          | error m => simp [hw, hf]
          | ok f' => simp [hw, hf] at hfail

/-- Witness for C9: a cycle failing with a forecast-side network
rejection leaves a previously written cache record in place. -/
theorem fetchCycle_failure_leaves_cache_unchanged_witness :
    cycleFails ⟨.resolve ⟨true, .ok ⟨"cur"⟩⟩, .reject "Failed to fetch"⟩ = true ∧
    (fetchCycle ⟨.resolve ⟨true, .ok ⟨"cur"⟩⟩, .reject "Failed to fetch"⟩
        "T5" "T6" "Delhi" initialUIState
        (some ⟨"Paris", ⟨"pw"⟩, ⟨"pf"⟩, "T0"⟩)).cache =
      some ⟨"Paris", ⟨"pw"⟩, ⟨"pf"⟩, "T0"⟩ :=
  ⟨rfl,
    fetchCycle_failure_leaves_cache_unchanged
      ⟨.resolve ⟨true, .ok ⟨"cur"⟩⟩, .reject "Failed to fetch"⟩
      "T5" "T6" "Delhi" initialUIState
      (some ⟨"Paris", ⟨"pw"⟩, ⟨"pf"⟩, "T0"⟩) rfl⟩

/-- C5 counterexample: a cycle failing at the network level (the
current-conditions `fetch` itself rejects, e.g. offline) surfaces the
rejection's own message, not the fixed "City not found" — so the claim
that every failing cycle shows "City not found" is false. -/
theorem fetchCycle_network_error_message_differs :
    (fetchCycle ⟨.reject "Failed to fetch", .resolve ⟨true, .ok ⟨"fc"⟩⟩⟩
        "T1" "T2" "Delhi" initialUIState none).state.error =
      some "Failed to fetch" ∧
    (fetchCycle ⟨.reject "Failed to fetch", .resolve ⟨true, .ok ⟨"fc"⟩⟩⟩
        "T1" "T2" "Delhi" initialUIState none).state.error ≠
      some "City not found" := by
  refine ⟨rfl, ?_⟩
  decide

/-- C5 amended: a cycle failing because either response resolved with a
non-success HTTP status (including credential rejection, which arrives
as such a status) surfaces the fixed message "City not found", and
those causes are not further distinguished; but a network-level
rejection of either request surfaces that rejection's own message
instead. -/
theorem fetchCycle_error_message_by_cause (env : FetchEnv)
    (now1 now2 city : String) (s : UIState) (cache : Option CacheRecord) :
    (∀ wresp fresp, env.weather = .resolve wresp →
        env.forecast = .resolve fresp →
        (wresp.ok = false ∨ fresp.ok = false) →
        (fetchCycle env now1 now2 city s cache).state.error =
          some "City not found") ∧
    (∀ m, env.weather = .reject m →
        (fetchCycle env now1 now2 city s cache).state.error = some m) ∧
    (∀ wresp m, env.weather = .resolve wresp → env.forecast = .reject m →
        (fetchCycle env now1 now2 city s cache).state.error = some m) := by
  refine ⟨?_, ?_, ?_⟩
  · rintro wresp fresp hw hf hok
    obtain ⟨w, f⟩ := env
    cases hw
    cases hf
    rcases hok with h | h <;> simp [fetchCycle, h]
  · rintro m hw
    obtain ⟨w, f⟩ := env
    cases hw
    rfl
  · rintro wresp m hw hf
    obtain ⟨w, f⟩ := env
    cases hw
    cases hf
    rfl

/-- Witness for the amended C5: a 404-style non-success status on the
first response yields exactly "City not found". -/
theorem fetchCycle_error_message_by_cause_witness :
    (fetchCycle ⟨.resolve ⟨false, .ok ⟨"nf"⟩⟩, .resolve ⟨true, .ok ⟨"fc"⟩⟩⟩
        "T1" "T2" "Atlantis" initialUIState none).state.error =
      some "City not found" :=
  (fetchCycle_error_message_by_cause
      ⟨.resolve ⟨false, .ok ⟨"nf"⟩⟩, .resolve ⟨true, .ok ⟨"fc"⟩⟩⟩
      "T1" "T2" "Atlantis" initialUIState none).1 _ _ rfl rfl (Or.inl rfl)

/-- C4 counterexample: the startup read is
`JSON.parse(localStorage.getItem(CACHE_KEY))` with no try/catch, so a
stored value the platform parser cannot parse (here modelled by a
parser that throws on it) makes the read raise, instead of yielding
"absent" — the claim that a malformed stored value never raises is
false. -/
theorem readCacheStartup_malformed_raises :
    readCacheStartup (fun _ => none) (some "not json") =
      Except.error "SyntaxError: malformed cache JSON" ∧
    readCacheStartup (fun _ => none) (some "not json") ≠ Except.ok none := by
  refine ⟨rfl, ?_⟩
  decide

/-- C4 amended: an absent stored value reads soft — `getItem` yields
null and `JSON.parse(null)` is null, so startup proceeds as with no
cache and no error is raised; but a stored value that is not
well-formed JSON makes the unguarded `JSON.parse` raise, and the error
propagates to the caller. -/
theorem readCacheStartup_absent_soft_malformed_raises
    (parse : String → Option CacheRecord) (stored : Option String) :
    (stored = none → readCacheStartup parse stored = Except.ok none) ∧
    (∀ s, stored = some s → parse s = none →
      readCacheStartup parse stored =
        Except.error "SyntaxError: malformed cache JSON") := by
  constructor
  · rintro rfl
    rfl
  · rintro s rfl hp
    simp [readCacheStartup, hp]

/-- Witness for the amended C4: an absent slot reads as no cache. -/
theorem readCacheStartup_absent_soft_witness :
    readCacheStartup (fun _ => none) none = Except.ok none :=
  (readCacheStartup_absent_soft_malformed_raises (fun _ => none) none).1 rfl

/-- C7: the mount-time effect, run from the initial state, adopts a
present cache record's city, data payloads and timestamp and clears
`isLoading` — all synchronously, before any network response can exist
(the effect itself issues no request, only a debounced trigger) — and
in every case passes the resolved city to the fetch trigger: the
cached city if a record exists, else the default city. -/
theorem startupEffect_adopts_cache_and_triggers (cached : Option CacheRecord) :
    startupEffect cached initialUIState =
      match cached with
      | some r =>
          ({ initialUIState with
              city := r.city
              weatherData := some r.weatherData
              forecastData := some r.forecastData
              lastUpdated := some r.lastUpdated
              isLoading := false },
            r.city)
      | none => (initialUIState, DEFAULT_CITY) := by
  cases cached <;> rfl

/-- C8: from any state whose `unit` is one of the two legal values
(the only values the program ever stores there), two calls to
`toggleUnit` restore the original state exactly; and a single call
issues no fetch trigger and changes no field other than `unit`. -/
theorem toggleUnit_involutive_and_local (s : UIState)
    (h : s.unit = "celsius" ∨ s.unit = "fahrenheit") :
    (toggleUnit (toggleUnit s).1).1 = s ∧
    (toggleUnit s).2 = [] ∧
    (toggleUnit s).1.city = s.city ∧
    (toggleUnit s).1.weatherData = s.weatherData ∧
    (toggleUnit s).1.forecastData = s.forecastData ∧
    (toggleUnit s).1.isLoading = s.isLoading ∧
    (toggleUnit s).1.error = s.error ∧
    (toggleUnit s).1.lastUpdated = s.lastUpdated := by
  obtain ⟨city, wd, fd, il, er, u, lu⟩ := s
  rcases h with h | h <;> simp_all [toggleUnit]

/-- Witness for C8 at the initial state (unit "celsius"). -/
theorem toggleUnit_involutive_and_local_witness :
    (initialUIState.unit = "celsius" ∨ initialUIState.unit = "fahrenheit") ∧
    (toggleUnit (toggleUnit initialUIState).1).1 = initialUIState ∧
    (toggleUnit initialUIState).2 = [] :=
  ⟨Or.inl rfl,
    (toggleUnit_involutive_and_local initialUIState (Or.inl rfl)).1,
    (toggleUnit_involutive_and_local initialUIState (Or.inl rfl)).2.1⟩

/-- C6 evidence: neither `useEffect` in `App` registers a cleanup and
`fetchWeatherData.cancel()` is never called, so unmounting while a
debounced call (triggered at t = 0 for the default city) is still
pending leaves the timer armed: the pending call fires at t = 300,
after teardown, instead of being discarded as the claim requires. -/
theorem pending_debounce_survives_unmount :
    pendingFires (unmountApp (debounceTrigger 0 DEFAULT_CITY ⟨none⟩).1) =
      [(debounceWait, DEFAULT_CITY)] := rfl

/-- The last trigger of a burst (with a default for the empty list):
the claim speaks of "the arguments of the last trigger in the
sequence". -/
def lastTrigger (dflt : Nat × String) : List (Nat × String) → Nat × String
  | [] => dflt
  | e :: rest => lastTrigger e rest

/-- One evaluation step of `runTriggers` on a nonempty list, phrased
through the outcome of the first call. -/
theorem runTriggers_cons (d d' : DebounceState)
    (fires : List (Nat × String)) (t : Nat) (a : String)
    (rest : List (Nat × String))
    (hstep : debounceTrigger t a d = (d', fires)) :
    runTriggers d ((t, a) :: rest) =
      ((runTriggers d' rest).1, fires ++ (runTriggers d' rest).2) := by
  simp [runTriggers, hstep]

/-- Helper for C1: feeding a burst whose first call arrives before an
armed timer's deadline into the debouncer produces no fires at all and
leaves the timer armed for the burst's last call. -/
theorem runTriggers_burst_no_fires (evs : List (Nat × String)) :
    ∀ (t : Nat) (a : String) (dl : Nat) (a0 : String),
      burst ((t, a) :: evs) = true → t < dl →
      runTriggers ⟨some (dl, a0)⟩ ((t, a) :: evs) =
        (⟨some ((lastTrigger (t, a) evs).1 + debounceWait,
                (lastTrigger (t, a) evs).2)⟩, []) := by
  induction evs with
  | nil =>
    intro t a dl a0 _ hlt
    simp [runTriggers, debounceTrigger, Nat.not_le.mpr hlt, lastTrigger]
  | cons e rest ih =>
    intro t a dl a0 hb hlt
    obtain ⟨t2, a2⟩ := e
    simp only [burst, Bool.and_eq_true, decide_eq_true_eq] at hb
    have hstep : debounceTrigger t a ⟨some (dl, a0)⟩ =
        (⟨some (t + debounceWait, a)⟩, []) := by
      simp [debounceTrigger, Nat.not_le.mpr hlt]
    rw [runTriggers_cons _ _ _ _ _ _ hstep,
      ih t2 a2 (t + debounceWait) a hb.2 hb.1.2]
    rfl

/-- C1: for every nonempty sequence of fetch triggers forming one
debounce burst (each call arriving within 300ms of the previous one),
the debounced `fetchWeatherData` fires exactly once — 300ms after the
last trigger, with the last trigger's city argument. -/
theorem debounce_burst_single_fire (t : Nat) (a : String)
    (evs : List (Nat × String)) (h : burst ((t, a) :: evs) = true) :
    debounceRun ((t, a) :: evs) =
      [((lastTrigger (t, a) evs).1 + debounceWait,
        (lastTrigger (t, a) evs).2)] := by
  cases evs with
  | nil => rfl
  | cons e rest =>
    obtain ⟨t2, a2⟩ := e
    simp only [burst, Bool.and_eq_true, decide_eq_true_eq] at h
    have hstep : debounceTrigger t a ⟨none⟩ =
        (⟨some (t + debounceWait, a)⟩, []) := rfl
    have hrun : debounceRun ((t, a) :: (t2, a2) :: rest) =
        (runTriggers ⟨none⟩ ((t, a) :: (t2, a2) :: rest)).2 ++
          pendingFires (runTriggers ⟨none⟩ ((t, a) :: (t2, a2) :: rest)).1 :=
      rfl
    rw [hrun, runTriggers_cons _ _ _ _ _ _ hstep,
      runTriggers_burst_no_fires rest t2 a2 (t + debounceWait) a h.2 h.1.2]
    rfl

/-- Witness for C1, Scenario E: a refresh trigger for "Delhi" at t = 0
followed 100ms later by a city change to "Paris" yields exactly one
fire, at t = 400, for "Paris". -/
theorem debounce_burst_single_fire_witness :
    burst [(0, "Delhi"), (100, "Paris")] = true ∧
    debounceRun [(0, "Delhi"), (100, "Paris")] = [(400, "Paris")] :=
  ⟨by decide, debounce_burst_single_fire 0 "Delhi" [(100, "Paris")] (by decide)⟩
